import Mathlib

/-!
Verification of the repository consisting of the single Python file
src/examples/tokens.py: a flat list of syntax samples for theme color
testing. We embed (a) the stateful parts of BaseClass and DerivedClass,
(b) the control flow of exception_examples with Python try/except/else/finally
semantics, (c) the file-internal call and dependency graph of the defined
functions and classes, and (d) the ordered list of top-level statements of
the module together with an effect-collecting evaluator for module
evaluation (import vs. run-as-script).
-/

/-! ## BaseClass and DerivedClass (src/examples/tokens.py lines 110-171) -/

/-- State of a BaseClass instance: __init__ stores value in
instance_variable and fixed strings in the protected and private slots
(lines 117-120). -/
structure BaseClass where
  instance_variable : Int
  _protected_instance : String
  __private_instance : String
deriving DecidableEq, Repr

/-- BaseClass.__init__ (lines 117-120); the Python default is value=0,
callers pass the value explicitly here. -/
def BaseClass.__init__ (value : Int) : BaseClass :=
  { instance_variable := value, _protected_instance := "protected",
    __private_instance := "private" }

/-- BaseClass.class_variable = "shared" (line 113). -/
def BaseClass.class_variable : String := "shared"

/-- BaseClass.instance_method (lines 122-124). -/
def BaseClass.instance_method (self : BaseClass) : String :=
  "Instance method: " ++ toString self.instance_variable

/-- BaseClass.class_method (lines 126-129). -/
def BaseClass.class_method : String :=
  "Class method: " ++ BaseClass.class_variable

/-- BaseClass.static_method (lines 131-134). -/
def BaseClass.static_method (param : String) : String :=
  "Static method: " ++ param

/-- computed_property getter (lines 136-139): instance_variable * 2. -/
def BaseClass.computed_property (self : BaseClass) : Int :=
  self.instance_variable * 2

/-- computed_property setter (lines 141-143): stores value // 2, where
Python // on ints is floor division (Int.fdiv). -/
def BaseClass.computed_property_set (self : BaseClass) (value : Int) : BaseClass :=
  { self with instance_variable := Int.fdiv value 2 }

/-- BaseClass.__len__ (lines 151-152). -/
def BaseClass.__len__ (self : BaseClass) : Int :=
  self.instance_variable

/-- BaseClass.__getitem__ (lines 154-155): instance_variable + key. -/
def BaseClass.__getitem__ (self : BaseClass) (key : Int) : Int :=
  self.instance_variable + key

/-- BaseClass.__setitem__ (lines 157-158): stores value - key. -/
def BaseClass.__setitem__ (self : BaseClass) (key : Int) (value : Int) : BaseClass :=
  { self with instance_variable := value - key }

/-- DerivedClass extends BaseClass with an extra string (lines 161-166). -/
structure DerivedClass extends BaseClass where
  extra : String
deriving DecidableEq, Repr

/-- DerivedClass.__init__ (lines 164-166): super().__init__(value) then
stores extra; Python defaults are value=0, extra="". -/
def DerivedClass.__init__ (value : Int) (extra : String) : DerivedClass :=
  { toBaseClass := BaseClass.__init__ value, extra := extra }

/-- DerivedClass.instance_method (lines 168-171): calls
super().instance_method() and appends the extra string. -/
def DerivedClass.instance_method (self : DerivedClass) : String :=
  BaseClass.instance_method self.toBaseClass ++ " + " ++ self.extra

/-! ## Exception semantics for exception_examples (lines 343-360) -/

/-- The exception classes named by the except clauses of
exception_examples, plus the catch-all Exception. -/
inductive ExcClass where
  | ValueErrorClass
  | TypeErrorClass
  | AttributeErrorClass
  | ExceptionClass
deriving DecidableEq, Repr

/-- Concrete exception values that can arise in the embedded code. -/
inductive PyExc where
  | valueError (msg : String)
  | typeError (msg : String)
  | attributeError (msg : String)
  | nameError (msg : String)
  | assertionError (msg : String)
deriving DecidableEq, Repr

/-- Python isinstance test of an exception value against a handler class:
every exception class in the file is a subclass of Exception, so the
Exception clause catches everything. -/
def PyExc.isinstance : PyExc → ExcClass → Bool
  | .valueError _, .ValueErrorClass => true
  | .typeError _, .TypeErrorClass => true
  | .attributeError _, .AttributeErrorClass => true
  | _, .ExceptionClass => true
  | _, _ => false

/-- Python str(e): the message carried by the exception. -/
def PyExc.str : PyExc → String
  | .valueError m => m
  | .typeError m => m
  | .attributeError m => m
  | .nameError m => m
  | .assertionError m => m

/-- Observable outcome of running a piece of code: the print lines it
emitted, and the exception it raised if it did not return normally. -/
structure Trace where
  prints : List String
  raised : Option PyExc
deriving DecidableEq, Repr

/-- Python try/except/else/finally: the body either returns normally
(none) or raises an exception; handlers are tried in order and the first
whose class tuple matches runs (its prints are a function of the caught
exception); with no raise the else block runs; the finally block always
runs; an unhandled exception propagates. -/
def runTryExceptElseFinally (body : Option PyExc)
    (handlers : List (List ExcClass × (PyExc → List String)))
    (elseBody : List String) (finallyBody : List String) : Trace :=
  match body with
  | none => { prints := elseBody ++ finallyBody, raised := none }
  | some e =>
    match handlers.find? (fun h => h.fst.any (fun c => e.isinstance c)) with
    | some h => { prints := h.snd e ++ finallyBody, raised := none }
    | none => { prints := finallyBody, raised := some e }

/-- The try body of exception_examples calls risky_operation() (line 347);
risky_operation is defined nowhere, so evaluating the name raises
NameError. -/
def risky_operation_call : Option PyExc :=
  some (.nameError "name risky_operation is not defined")

/-- exception_examples (lines 343-360): the try statement with its three
except clauses, else and finally, followed by the unconditional
raise ValueError("Custom error message") at line 360. -/
def exception_examples : Trace :=
  let t := runTryExceptElseFinally risky_operation_call
    [([.ValueErrorClass], fun e => ["ValueError: " ++ e.str]),
     ([.TypeErrorClass, .AttributeErrorClass],
        fun e => ["Type or Attribute error: " ++ e.str]),
     ([.ExceptionClass], fun e => ["General exception: " ++ e.str])]
    ["No exception occurred"]
    ["Cleanup code"]
  match t.raised with
  | some e => { prints := t.prints, raised := some e }
  | none => { prints := t.prints, raised := some (.valueError "Custom error message") }

/-! ## File-internal call and dependency graph -/

/-- The functions and classes defined at top level of the module. -/
inductive PyName where
  | BaseClass
  | DerivedClass
  | Mixin
  | MultipleInheritance
  | AbstractClass
  | DataClassExample
  | Color
  | Status
  | GenericClass
  | simple_function
  | function_with_defaults
  | function_with_args
  | function_with_annotations
  | decorator_function
  | parametrized_decorator
  | decorated_function
  | control_flow_examples
  | exception_examples
  | CustomException
  | custom_context_manager
  | context_manager_examples
  | async_function
  | async_generator
  | async_context_manager
  | file_operations
  | builtin_examples
  | IterableClass
  | MetaClass
  | ClassWithMeta
  | outer_function
  | placeholder_function
  | annotated_function
deriving DecidableEq, Repr, Fintype

/-- File-defined callables whose bodies a definition invokes when it is
itself executed: DerivedClass methods call super() into BaseClass
(lines 165, 170), context_manager_examples enters custom_context_manager
(line 386), async_context_manager awaits async_function (line 404). All
other bodies call only builtins, imported names, undefined names, or
locally defined helpers. -/
def PyName.calls : PyName → List PyName
  | .DerivedClass => [.BaseClass]
  | .context_manager_examples => [.custom_context_manager]
  | .async_context_manager => [.async_function]
  | _ => []

/-- Await expressions targeting file-defined async functions:
async_context_manager awaits async_function() at line 404; nothing else
in the module awaits or iterates a file-defined async function. -/
def PyName.awaits : PyName → List PyName
  | .async_context_manager => [.async_function]
  | _ => []

/-- File-internal references a definition depends on (base classes,
decorators, metaclass, called or awaited file-defined functions):
DerivedClass(BaseClass) line 161, MultipleInheritance(BaseClass, Mixin)
line 180, decorated_function wrapped by decorator_function and
parametrized_decorator lines 283-284, context_manager_examples uses
custom_context_manager line 386, async_context_manager awaits
async_function line 404, ClassWithMeta has metaclass MetaClass line 485. -/
def PyName.dependsOn : PyName → List PyName
  | .DerivedClass => [.BaseClass]
  | .MultipleInheritance => [.BaseClass, .Mixin]
  | .decorated_function => [.decorator_function, .parametrized_decorator]
  | .context_manager_examples => [.custom_context_manager]
  | .async_context_manager => [.async_function]
  | .ClassWithMeta => [.MetaClass]
  | _ => []

/-- Names of exception classes raised by a raise statement in each body:
only exception_examples contains a raise, of ValueError (line 360).
CustomException is defined (lines 363-368) but raised nowhere. -/
def PyName.raisesExceptionClasses : PyName → List String
  | .exception_examples => ["ValueError"]
  | _ => []

/-- Whether the body of a definition writes a file when executed: only
file_operations opens files in write mode (lines 422, 428). -/
def PyName.writes : PyName → Bool
  | .file_operations => true
  | _ => false

/-- File-defined callables invoked while evaluating the module top level:
the decorator applications at lines 283-284 call parametrized_decorator
(with "test") and decorator_function at definition time, and the
run-as-script block calls function_with_args at line 505. Everything else
executed at top level is a builtin, an imported name, or a definition. -/
def moduleLevelCalls (isMain : Bool) : List PyName :=
  [.parametrized_decorator, .decorator_function] ++
    (if isMain then [.function_with_args] else [])

/-- One step of the call relation over a set of already reached names. -/
def callStep (l : List PyName) : List PyName :=
  (l.map PyName.calls).flatten

/-- Fuel-bounded transitive closure of the call relation. -/
def reachAux : Nat → List PyName → List PyName
  | 0, acc => acc
  | n + 1, acc =>
    let acc2 := (acc ++ callStep acc).dedup
    if acc2.length = acc.length then acc else reachAux n acc2

/-- File-defined callables whose bodies run, directly or transitively,
during evaluation of the module top level. -/
def moduleReachable (isMain : Bool) : List PyName :=
  reachAux 40 (moduleLevelCalls isMain)

/-! ## Top-level statements of the module and their evaluation -/

/-- A tiny matcher for the compiled pattern r"\d+\.\d+" of line 408:
after at least one digit, skip further digits and require a dot followed
by a digit. -/
def floatRest : List Char → Bool
  | [] => false
  | c :: cs =>
    if c.isDigit then floatRest cs
    else if c = Char.ofNat 46 then
      match cs with
      | d :: _ => d.isDigit
      | [] => false
    else false

/-- Does the pattern \d+\.\d+ match at the head of the character list? -/
def floatMatchAt : List Char → Bool
  | [] => false
  | c :: cs => c.isDigit && floatRest cs

/-- pattern.search: does \d+\.\d+ match at any position? -/
def searchFloatPattern : List Char → Bool
  | [] => false
  | c :: cs => floatMatchAt (c :: cs) || searchFloatPattern cs

/-- The module-level search pattern.search("Version 1.23.4") of line 409,
reduced to whether a match was found (it is used only as a truth value at
line 410). -/
def regex_search_found : Bool :=
  searchFloatPattern ("Version 1.23.4".toList)

/-- Observable effects of evaluating a statement. -/
inductive Effect where
  | print (text : String)
  | fileWrite (path : String)
  | fileRead (path : String)
deriving DecidableEq, Repr

/-- Conditions guarding module-level if statements: the __main__ guard at
line 490, the truthiness of the regex match at line 410, and the walrus
condition (n := len("hello")) > 3 at line 508. -/
inductive Cond where
  | nameEqMain
  | regexMatchTruthy
  | walrusLenHelloGt3
deriving DecidableEq, Repr

/-- Evaluate a guard, given whether the module runs as a script. -/
def Cond.eval (isMain : Bool) : Cond → Bool
  | .nameEqMain => isMain
  | .regexMatchTruthy => regex_search_found
  | .walrusLenHelloGt3 => decide ("hello".length > 3)

/-- Statements appearing inside a module-level if block. -/
inductive SimpleStmt where
  | printCall (text : String)
  | assign (targets : List String)
  | exprCall (fn : String)
  | condPrint (c : Cond) (text : String)
  | assertStmt (cond : Bool)
deriving DecidableEq, Repr

/-- Top-level statements of the module. -/
inductive TopStmt where
  | docstring (text : String)
  | importStmt (modname : String)
  | fromImport (modname : String) (names : List String)
  | assign (targets : List String)
  | augAssign (target : String)
  | classDef (cname : String) (bases : List String)
  | funDef (fname : String) (decorators : List String)
  | asyncFunDef (fname : String)
  | printCall (text : String)
  | ifStmt (c : Cond) (body : List SimpleStmt)
deriving DecidableEq, Repr

/-- Effects and possible exception from one simple statement. -/
def SimpleStmt.eval (isMain : Bool) : SimpleStmt → List Effect × Option PyExc
  | .printCall t => ([.print t], none)
  | .assign _ => ([], none)
  | .exprCall _ => ([], none)
  | .condPrint c t => (if c.eval isMain then [.print t] else [], none)
  | .assertStmt b => ([], if b then none else some (.assertionError "assert failed"))

/-- Run a list of simple statements in order, stopping at a raise. -/
def evalSimpleList (isMain : Bool) : List SimpleStmt → List Effect × Option PyExc
  | [] => ([], none)
  | s :: rest =>
    let r := s.eval isMain
    match r.snd with
    | some e => (r.fst, some e)
    | none =>
      let r2 := evalSimpleList isMain rest
      (r.fst ++ r2.fst, r2.snd)

/-- Effects and possible exception from one top-level statement.
Definitions, imports and assignments emit no observable effect. -/
def TopStmt.eval (isMain : Bool) : TopStmt → List Effect × Option PyExc
  | .printCall t => ([.print t], none)
  | .ifStmt c body => if c.eval isMain then evalSimpleList isMain body else ([], none)
  | _ => ([], none)

/-- Run the top-level statements in order, stopping at a raise. -/
def evalTopList (isMain : Bool) : List TopStmt → List Effect × Option PyExc
  | [] => ([], none)
  | s :: rest =>
    let r := s.eval isMain
    match r.snd with
    | some e => (r.fst, some e)
    | none =>
      let r2 := evalTopList isMain rest
      (r.fst ++ r2.fst, r2.snd)

/-- Top-level statements, part 1: module docstring and imports
(lines 1-25 of src/examples/tokens.py). -/
def tokens_module_part1 : List TopStmt := [
  .docstring "Comprehensive Python syntax for theme color testing.",
  .importStmt "os",
  .importStmt "sys",
  .importStmt "json",
  .importStmt "asyncio",
  .fromImport "typing" ["Dict", "List", "Optional", "Union", "Tuple", "Any", "TypeVar", "Generic"],
  .fromImport "collections" ["defaultdict", "namedtuple"],
  .fromImport "dataclasses" ["dataclass", "field"],
  .fromImport "enum" ["Enum", "IntEnum", "auto"],
  .fromImport "abc" ["ABC", "abstractmethod"],
  .fromImport "contextlib" ["contextmanager"],
  .importStmt "re",
  .docstring "Multi-line string that can serve as documentation"]

/-- Top-level statements, part 2: constant, literal, string, bytes,
collection and comprehension assignments (lines 27-84). -/
def tokens_module_part2 : List TopStmt := [
  .assign ["CONSTANT_VALUE"],
  .assign ["_PRIVATE_CONSTANT"],
  .assign ["__DUNDER_CONSTANT"],
  .assign ["integer"],
  .assign ["float_num"],
  .assign ["scientific"],
  .assign ["negative"],
  .assign ["binary"],
  .assign ["octal"],
  .assign ["hexadecimal"],
  .assign ["complex_num"],
  .assign ["single_quoted"],
  .assign ["double_quoted"],
  .assign ["triple_single"],
  .assign ["triple_double"],
  .assign ["name"],
  .assign ["formatted_string"],
  .assign ["old_format"],
  .assign ["old_style"],
  .assign ["raw_string"],
  .assign ["unicode_string"],
  .assign ["byte_string"],
  .assign ["byte_array"],
  .assign ["list_example"],
  .assign ["tuple_example"],
  .assign ["set_example"],
  .assign ["dict_example"],
  .assign ["list_comp"],
  .assign ["dict_comp"],
  .assign ["set_comp"],
  .assign ["generator_exp"],
  .assign ["true_val"],
  .assign ["false_val"],
  .assign ["none_val"]]

/-- Top-level statements, part 3: operator demonstration assignments and
the twelve augmented assignments (lines 86-107). -/
def tokens_module_part3 : List TopStmt := [
  .assign ["arithmetic"],
  .assign ["comparison"],
  .assign ["logical"],
  .assign ["bitwise"],
  .assign ["assignment"],
  .augAssign "assignment",
  .augAssign "assignment",
  .augAssign "assignment",
  .augAssign "assignment",
  .augAssign "assignment",
  .augAssign "assignment",
  .augAssign "assignment",
  .augAssign "assignment",
  .augAssign "assignment",
  .augAssign "assignment",
  .augAssign "assignment",
  .augAssign "assignment",
  .assign ["membership"],
  .assign ["identity"]]

/-- Top-level statements, part 4: class definitions, named tuple, enums
and generics (lines 109-235). -/
def tokens_module_part4 : List TopStmt := [
  .classDef "BaseClass" [],
  .classDef "DerivedClass" ["BaseClass"],
  .classDef "Mixin" [],
  .classDef "MultipleInheritance" ["BaseClass", "Mixin"],
  .classDef "AbstractClass" ["ABC"],
  .classDef "DataClassExample" [],
  .assign ["Point"],
  .assign ["point"],
  .classDef "Color" ["Enum"],
  .classDef "Status" ["IntEnum"],
  .assign ["T"],
  .assign ["U"],
  .classDef "GenericClass" ["Generic"]]

/-- Top-level statements, part 5: function definitions, lambdas,
decorators, exception and context manager samples, async definitions and
the module-level regex search (lines 237-411). -/
def tokens_module_part5 : List TopStmt := [
  .funDef "simple_function" [],
  .funDef "function_with_defaults" [],
  .funDef "function_with_args" [],
  .funDef "function_with_annotations" [],
  .assign ["lambda_simple"],
  .assign ["lambda_complex"],
  .funDef "decorator_function" [],
  .funDef "parametrized_decorator" [],
  .funDef "decorated_function" ["decorator_function", "parametrized_decorator"],
  .funDef "control_flow_examples" [],
  .funDef "exception_examples" [],
  .classDef "CustomException" ["Exception"],
  .funDef "custom_context_manager" ["contextmanager"],
  .funDef "context_manager_examples" [],
  .asyncFunDef "async_function",
  .asyncFunDef "async_generator",
  .asyncFunDef "async_context_manager",
  .assign ["pattern"],
  .assign ["match"],
  .ifStmt .regexMatchTruthy [.assign ["version"]]]

/-- Top-level statements, part 6: file and builtin samples, protocol and
metaclass classes, the run-as-script block, globals and the three
unconditional print statements (lines 413-553). -/
def tokens_module_part6 : List TopStmt := [
  .funDef "file_operations" [],
  .funDef "builtin_examples" [],
  .classDef "IterableClass" [],
  .classDef "MetaClass" ["type"],
  .classDef "ClassWithMeta" [],
  .ifStmt .nameEqMain [
    .printCall "Running as main module",
    .assign ["a", "b", "rest"],
    .assign ["first", "middle", "last"],
    .assign ["dict1"],
    .assign ["dict2"],
    .assign ["args"],
    .assign ["kwargs"],
    .exprCall "function_with_args",
    .condPrint .walrusLenHelloGt3 "Length is 5",
    .assign ["value"],
    .printCall "Value: 42, Hex: 2a, Binary: 101010",
    .printCall "Calculation: 2 + 3 = 5",
    .assertStmt true,
    .assertStmt true],
  .assign ["global_var"],
  .funDef "outer_function" [],
  .printCall "__name__",
  .printCall "__file__",
  .printCall "__doc__",
  .funDef "placeholder_function" [],
  .funDef "annotated_function" []]

/-- The ordered top-level statements of src/examples/tokens.py, lines
1-553: the concatenation of the six parts in source order. Strings record
the defined or assigned names; print arguments carry their evaluated
text. -/
def tokens_module : List TopStmt :=
  tokens_module_part1 ++ tokens_module_part2 ++ tokens_module_part3 ++
    tokens_module_part4 ++ tokens_module_part5 ++ tokens_module_part6

/-- Evaluate the whole module top level, given whether it runs as a
script (isMain) or is imported. -/
def evalModule (isMain : Bool) : List Effect × Option PyExc :=
  evalTopList isMain tokens_module

/-- Is an effect a print (as opposed to a file write or read)? -/
def Effect.isPrint : Effect → Bool
  | .print _ => true
  | _ => false

/-- Well-formedness of a simple statement: nonempty names and texts. -/
def SimpleStmt.wf : SimpleStmt → Bool
  | .printCall t => !t.isEmpty
  | .assign ts => !ts.isEmpty && ts.all (fun s => !s.isEmpty)
  | .exprCall f => !f.isEmpty
  | .condPrint _ t => !t.isEmpty
  | .assertStmt _ => true

/-- Well-formedness of a top-level statement: nonempty names, nonempty
imported-name lists, nonempty if bodies with well-formed statements. -/
def TopStmt.wf : TopStmt → Bool
  | .docstring t => !t.isEmpty
  | .importStmt m => !m.isEmpty
  | .fromImport m ns => !m.isEmpty && !ns.isEmpty && ns.all (fun s => !s.isEmpty)
  | .assign ts => !ts.isEmpty && ts.all (fun s => !s.isEmpty)
  | .augAssign t => !t.isEmpty
  | .classDef n bs => !n.isEmpty && bs.all (fun s => !s.isEmpty)
  | .funDef n ds => !n.isEmpty && ds.all (fun s => !s.isEmpty)
  | .asyncFunDef n => !n.isEmpty
  | .printCall t => !t.isEmpty
  | .ifStmt _ body => !body.isEmpty && body.all SimpleStmt.wf

/-- The module embedding is nonempty and every statement is well formed. -/
def moduleWellFormed : Bool :=
  !tokens_module.isEmpty && tokens_module.all TopStmt.wf

/-! ## Theorems -/

/-- C8: for every BaseClass instance obj and integers k and v, the item
assignment obj[k] = v followed by the read obj[k] returns exactly v:
__setitem__ stores value - key and __getitem__ adds the key back. -/
theorem setitem_getitem_roundtrip (obj : BaseClass) (k v : Int) :
    (obj.__setitem__ k v).__getitem__ k = v := by
  simp [BaseClass.__setitem__, BaseClass.__getitem__]

/-- C9: setting computed_property to v and reading it back yields
2 * (v // 2) with Python floor division; that is v when v is even and
v - 1 when v is odd. -/
theorem computed_property_set_get (obj : BaseClass) (v : Int) :
    (obj.computed_property_set v).computed_property = 2 * Int.fdiv v 2 ∧
    (v % 2 = 0 → (obj.computed_property_set v).computed_property = v) ∧
    (v % 2 = 1 → (obj.computed_property_set v).computed_property = v - 1) := by
  have h : Int.fdiv v 2 = v / 2 := Int.fdiv_eq_ediv v (by norm_num)
  simp only [BaseClass.computed_property_set, BaseClass.computed_property, h]
  omega

/-- Witness for C9 at the even input 4 and the odd input 7. -/
theorem computed_property_set_get_witness :
    ((BaseClass.__init__ 0).computed_property_set 4).computed_property = 4 ∧
    ((BaseClass.__init__ 0).computed_property_set 7).computed_property = 6 :=
  ⟨(computed_property_set_get (BaseClass.__init__ 0) 4).2.1 (by decide),
   (computed_property_set_get (BaseClass.__init__ 0) 7).2.2 (by decide)⟩

/-- C10: every call to exception_examples raises
ValueError("Custom error message"): the undefined risky_operation raises
NameError, the catch-all Exception handler catches it, the else branch
never runs, the finally branch runs, and the trailing raise executes. -/
theorem exception_examples_raises_custom_error :
    exception_examples.raised = some (PyExc.valueError "Custom error message") ∧
    exception_examples.prints =
      ["General exception: name risky_operation is not defined", "Cleanup code"] ∧
    "No exception occurred" ∉ exception_examples.prints ∧
    "Cleanup code" ∈ exception_examples.prints := by decide

/-- C2: no execution path reachable from evaluating the module reaches
the handlers of exception_examples, CustomException is raised by no body
in the file, and module evaluation itself raises nothing. -/
theorem exception_machinery_never_exercised :
    (∀ m : Bool, PyName.exception_examples ∉ moduleReachable m) ∧
    (∀ n : PyName, "CustomException" ∉ n.raisesExceptionClasses) ∧
    (∀ m : Bool, (evalModule m).snd = none) := by decide

/-- C7: the embedding of the entire module is a nonempty, well-formed
statement list. -/
theorem tokens_module_well_formed : moduleWellFormed = true := by decide

/-- C1 counterexample: evaluating the module top level on import is not
effect-free, refuting the claim that it produces no observable effect. -/
theorem module_import_not_effect_free : (evalModule false).fst ≠ [] := by decide

/-- C1 amended: evaluating the module top level on import raises nothing
but produces exactly three observable print effects, the unconditional
print statements of __name__, __file__ and __doc__ at lines 537-539. -/
theorem module_import_effects_exactly_three_prints :
    evalModule false =
      ([Effect.print "__name__", Effect.print "__file__", Effect.print "__doc__"],
        none) := by decide

/-- C5 counterexample: the module has a code path that runs only when it
is executed as a script, refuting the claim that no such path exists. -/
theorem main_guard_code_path_exists :
    (evalModule true).fst ≠ (evalModule false).fst := by decide

/-- C5 amended: the run-as-script guard adds print effects, but no
execution reachable from module evaluation, imported or as script, writes
a file or persists data: all effects are prints, the evaluation raises
nothing, and file_operations is never reached. -/
theorem no_file_writes_from_module_evaluation :
    (∀ m : Bool, (evalModule m).fst.all Effect.isPrint = true ∧
      (evalModule m).snd = none) ∧
    (∀ m : Bool, PyName.file_operations ∉ moduleReachable m) ∧
    (moduleReachable true).all (fun n => !PyName.writes n) = true ∧
    (moduleReachable false).all (fun n => !PyName.writes n) = true := by decide

/-- C4 counterexample: __setitem__ on a BaseClass instance changes the
stored instance data, refuting the claim that no operation on any
instance changes stored data. -/
theorem setitem_mutates_instance_state :
    BaseClass.__setitem__ (BaseClass.__init__ 0) 1 5 ≠ BaseClass.__init__ 0 := by
  decide

/-- C4 amended: BaseClass instances do carry mutable per-instance state:
__init__ stores the value, __setitem__ overwrites it with value - key,
and the computed_property setter overwrites it with value // 2. -/
theorem baseclass_instances_carry_mutable_state (obj : BaseClass) (k v : Int) :
    (BaseClass.__init__ v).instance_variable = v ∧
    (obj.__setitem__ k v).instance_variable = v - k ∧
    (obj.computed_property_set v).instance_variable = Int.fdiv v 2 :=
  ⟨rfl, rfl, rfl⟩

/-- C6 counterexample: DerivedClass depends on BaseClass and
decorated_function depends on decorator_function, refuting the claim that
no definition in the file depends on another. -/
theorem derived_class_depends_on_base_class :
    PyName.BaseClass ∈ PyName.dependsOn PyName.DerivedClass ∧
    PyName.decorator_function ∈ PyName.dependsOn PyName.decorated_function := by
  decide

/-- C6 amended: exactly six definitions depend on other definitions of
the file (DerivedClass, MultipleInheritance, decorated_function,
context_manager_examples, async_context_manager, ClassWithMeta); all
others are independent. Moreover the dependence of DerivedClass is
semantic: its instance_method result extends the BaseClass result. -/
theorem construct_dependencies_enumerated :
    (∀ n : PyName, PyName.dependsOn n ≠ [] ↔
      n ∈ [PyName.DerivedClass, PyName.MultipleInheritance,
           PyName.decorated_function, PyName.context_manager_examples,
           PyName.async_context_manager, PyName.ClassWithMeta]) ∧
    (∀ (v : Int) (e : String),
      DerivedClass.instance_method (DerivedClass.__init__ v e) =
        BaseClass.instance_method (BaseClass.__init__ v) ++ " + " ++ e) := by
  refine ⟨by decide, ?_⟩
  intro v e
  rfl

/-- C3 counterexample: the body of async_context_manager awaits and so
calls async_function (line 404), refuting the claim that no code in the
module calls, awaits, or iterates any of the async functions. -/
theorem async_function_awaited_by_async_context_manager :
    PyName.async_function ∈ PyName.awaits PyName.async_context_manager ∧
    PyName.async_function ∈ PyName.calls PyName.async_context_manager := by
  decide

/-- C3 amended: async_function is awaited exactly once, inside the body
of async_context_manager; async_generator and async_context_manager are
never called or awaited anywhere; and no async function is ever executed
from module evaluation. -/
theorem async_defs_never_executed_amended :
    (∀ n : PyName, PyName.async_function ∈ PyName.awaits n ↔
      n = PyName.async_context_manager) ∧
    (∀ n : PyName, PyName.async_generator ∉ PyName.awaits n ∧
      PyName.async_generator ∉ PyName.calls n ∧
      PyName.async_context_manager ∉ PyName.awaits n ∧
      PyName.async_context_manager ∉ PyName.calls n) ∧
    (∀ m : Bool, PyName.async_function ∉ moduleReachable m ∧
      PyName.async_generator ∉ moduleReachable m ∧
      PyName.async_context_manager ∉ moduleReachable m) := by decide
